import Mathlib

/-!
Verification of the proftafla exam-schedule scraper module (`scraper.js`).

The module fetches an HTML fragment per academic division from an upstream
endpoint, parses it into departments (level-3 headings) and tests (table
rows), caches the parsed record in a key-value store under
`proftafla:<slug>`, and aggregates statistics across all divisions.

The embedding below is a shallow model of `scraper.js`:
* JS numbers are modelled by `Option Int` (`none` is `NaN`): every number the
  module computes with is integer-valued; the single division feeding
  `toFixed(2)` is formatted from its exact numerator/denominator pair.
* The HTML fragment is modelled structurally as the sibling sequence cheerio
  walks: `h3` headings, tables (their `tbody tr` rows, each row its `td`
  texts), and other elements.
* Effects are passed explicitly: the transport capability, the store's
  failure modes and its contents are an `Env` and a `CacheState`; a thrown
  JS error is an `Except` error; `getTests` threads the state and counts
  upstream requests.
* The store's text layer is modelled up to JSON decoding: a stored string is
  represented by its parse outcome (`jsonText j` for a string that decodes
  to `j`, `badText` for one `JSON.parse` rejects); `JSON.stringify` always
  produces text that decodes back to the same JSON value, with `NaN`
  serialising to `null`.
-/

namespace Scraper

/-! ### JS string and number primitives -/

/-- Whitespace recognised by `String.prototype.trim` (the forms occurring in
this data: space, tab, LF, CR). -/
def isWsChar (c : Char) : Bool :=
  c.toNat = 32 || c.toNat = 9 || c.toNat = 10 || c.toNat = 13

/-- Drop leading whitespace characters. -/
def dropWs : List Char → List Char
  | [] => []
  | c :: cs => if isWsChar c then dropWs cs else c :: cs

/-- Model of `String.prototype.trim`: strip whitespace from both ends. -/
def jsTrim (s : String) : String :=
  ⟨(dropWs (dropWs s.data).reverse).reverse⟩

/-- Decimal digit test, `'0'` through `'9'`. -/
def isDigitChar (c : Char) : Bool := 48 ≤ c.toNat && c.toNat ≤ 57

/-- Value of a decimal digit string. -/
def digitsToNat (l : List Char) : Nat :=
  l.foldl (fun n c => 10 * n + (c.toNat - 48)) 0

/-- Model of the JS `Number(s)` conversion on the string forms occurring in
this module's data: the empty string converts to `0`, an unsigned decimal
integer literal to its value, and any other string to `NaN` (`none`).
Signed, fractional, exponent and hex forms do not occur in the scraped
student-count column and are not modelled. -/
def jsNumber (s : String) : Option Int :=
  if s.data.isEmpty then some 0
  else if s.data.all isDigitChar then some (digitsToNat s.data : Int)
  else none

/-! ### Data model (`scraper.js` records) -/

/-- One exam row, built at `scraper.js:125-131`. `students` is
`Number(text)`, so `NaN` (`none`) when the cell text is not numeric. -/
structure Test where
  course : String
  name : String
  type : String
  students : Option Int
  date : String
deriving DecidableEq

/-- One department: a level-3 heading and the rows of the table that follows
it (`scraper.js:134-137`). -/
structure Department where
  heading : String
  tests : List Test
deriving DecidableEq

/-- The record `fetchAndParse` returns and `getTests` caches
(`scraper.js:140`). -/
structure DivisionResult where
  heading : String
  departments : List Department
deriving DecidableEq

/-- A registry entry (`scraper.js:29-55`). -/
structure Division where
  name : String
  id : Nat
  slug : String
deriving DecidableEq

/-- The static division registry (`schools`, `scraper.js:29-55`). -/
def schools : List Division :=
  [⟨"Félagsvísindasvið", 1, "felagsvisindasvid"⟩,
   ⟨"Heilbrigðisvísindasvið", 2, "heilbrigdisvisindasvid"⟩,
   ⟨"Hugvísindasvið", 3, "hugvisindasvid"⟩,
   ⟨"Menntavísindasvið", 4, "menntavisindasvid"⟩,
   ⟨"Verkfræði- og náttúruvísindasvið", 5, "verkfraedi-og-natturuvisindasvid"⟩]

/-! ### HTML fragment model and parsing -/

/-- One sibling element of the fetched HTML fragment, as cheerio walks it:
a level-3 heading with its text, a table with its `tbody tr` rows (each row
the texts of its `td` cells in order), or any other element. -/
inductive Node where
  | h3 (text : String)
  | table (rows : List (List String))
  | other
deriving DecidableEq

/-- Convert one table row to a `Test` (`scraper.js:119-131`): read the five
fixed-position cells in order (course, name, type, students, date), trim
each, and convert the students text with `Number`. A missing cell selects
nothing, whose `.text()` is the empty string. -/
def rowToTest (cells : List String) : Test :=
  { course := jsTrim (cells.getD 0 "")
    name := jsTrim (cells.getD 1 "")
    type := jsTrim (cells.getD 2 "")
    students := jsNumber (jsTrim (cells.getD 3 ""))
    date := jsTrim (cells.getD 4 "") }

/-- Parse the fragment (`scraper.js:109-138`): every `h3` starts a
department whose heading is the trimmed heading text and whose tests come
from the rows of the immediately following sibling when that sibling is a
table (`$(el).next('table')`), and are empty otherwise. -/
def parseFragment : List Node → List Department
  | [] => []
  | Node.h3 t :: rest =>
    { heading := jsTrim t
      tests := match rest with
        | Node.table rows :: _ => rows.map rowToTest
        | _ => [] } :: parseFragment rest
  | _ :: rest => parseFragment rest

/-- Number of level-3 headings in a fragment. -/
def countH3 : List Node → Nat
  | [] => 0
  | Node.h3 _ :: rest => countH3 rest + 1
  | _ :: rest => countH3 rest

/-! ### Fetch model -/

/-- Body of an HTTP response: either text `result.json()` rejects, or a JSON
body whose `html` field holds the fragment. -/
inductive FetchBody where
  | badJson
  | okBody (html : List Node)
deriving DecidableEq

/-- Outcome of one `fetch(url)` call: a rejected promise (network failure)
or a response with a status and a body. -/
inductive FetchOutcome where
  | netFail
  | resp (status : Nat) (body : FetchBody)
deriving DecidableEq

/-- A thrown JS error, by provenance: the transport's own rejection, the
`Non 200 status from url` error thrown at `scraper.js:101`, or a JSON
decode rejection. -/
inductive JsErr where
  | netError
  | non200
  | badJson
deriving DecidableEq

/-- Model of `fetchAndParse` (`scraper.js:95-141`) applied to the outcome of
its single `fetch`: a network failure propagates; a status other than
exactly 200 throws; a JSON decode failure propagates; otherwise the `html`
fragment is parsed and `{ heading, departments }` is returned. -/
def fetchAndParse (f : FetchOutcome) (heading : String) :
    Except JsErr DivisionResult :=
  match f with
  | .netFail => .error .netError
  | .resp status body =>
    if status ≠ 200 then .error .non200
    else
      match body with
      | .badJson => .error .badJson
      | .okBody html => .ok { heading := heading, departments := parseFragment html }

/-! ### JSON values and the DivisionResult codec -/

/-- A JSON value, as `JSON.parse` produces it. Numbers are the integers
occurring in this module's data. -/
inductive Json where
  | null
  | b (v : Bool)
  | num (n : Int)
  | str (s : String)
  | arr (elems : List Json)
  | obj (members : List (String × Json))

/-- JS truthiness of a parsed JSON value (`if (cached)`): `null`, `false`,
`0` and the empty string are falsy; every object and array is truthy. -/
def jsTruthy : Json → Bool
  | .null => false
  | .b v => v
  | .num n => n != 0
  | .str s => !s.data.isEmpty
  | .arr _ => true
  | .obj _ => true

/-- JSON image of a `Test` under `JSON.stringify`, fields in insertion
order; a `NaN` students value serialises to `null`. -/
def testToJson (t : Test) : Json :=
  .obj [("course", .str t.course), ("name", .str t.name), ("type", .str t.type),
        ("students", match t.students with | some n => .num n | none => .null),
        ("date", .str t.date)]

/-- JSON image of a `Department`. -/
def departmentToJson (d : Department) : Json :=
  .obj [("heading", .str d.heading), ("tests", .arr (d.tests.map testToJson))]

/-- JSON image of a `DivisionResult`, the text stored by `cache`. -/
def divisionToJson (d : DivisionResult) : Json :=
  .obj [("heading", .str d.heading),
        ("departments", .arr (d.departments.map departmentToJson))]

/-- Decode a `Test` from its JSON image. A `null` students field — the
`JSON.stringify` image of a `NaN` — is not the image of any actual number,
and decoding it back to a `Test` fails: `JSON.parse` produces a record
carrying `students: null` there, a different JS value from the `NaN` of the
freshly parsed record, so the round trip does not recover the original. -/
def testFromJson : Json → Option Test
  | .obj [("course", .str c), ("name", .str n), ("type", .str ty),
          ("students", s), ("date", .str dt)] =>
    match s with
    | .num v => some ⟨c, n, ty, some v, dt⟩
    | _ => none
  | _ => none

/-- Decode a list of tests, failing if any element fails. -/
def testsFromJson : List Json → Option (List Test)
  | [] => some []
  | j :: js =>
    match testFromJson j, testsFromJson js with
    | some t, some ts => some (t :: ts)
    | _, _ => none

/-- Decode a `Department` from its JSON image. -/
def departmentFromJson : Json → Option Department
  | .obj [("heading", .str h), ("tests", .arr ts)] =>
    match testsFromJson ts with
    | some l => some ⟨h, l⟩
    | none => none
  | _ => none

/-- Decode a list of departments, failing if any element fails. -/
def departmentsFromJson : List Json → Option (List Department)
  | [] => some []
  | j :: js =>
    match departmentFromJson j, departmentsFromJson js with
    | some d, some ds => some (d :: ds)
    | _, _ => none

/-- Decode a `DivisionResult` from its JSON image. -/
def divisionFromJson : Json → Option DivisionResult
  | .obj [("heading", .str h), ("departments", .arr ds)] =>
    match departmentsFromJson ds with
    | some l => some ⟨h, l⟩
    | none => none
  | _ => none

/-- Every students field of `d` is an actual number (not `NaN`). -/
def numericDivision (d : DivisionResult) : Bool :=
  d.departments.all fun dep => dep.tests.all fun t => t.students.isSome

/-! ### Cache store model -/

/-- A stored string, represented by its `JSON.parse` outcome: `jsonText j`
for text decoding to `j`, `badText` for text `JSON.parse` rejects. -/
inductive TextVal where
  | jsonText (j : Json)
  | badText

/-- Process-wide state threaded through the operations: the store's entries
(key to stored text) and the number of upstream requests issued so far (the
call count on the transport capability). -/
structure CacheState where
  entries : List (String × TextVal)
  fetchCount : Nat

/-- The environment capabilities: whether store reads, store writes, key
listing, or per-key deletes fail (throw), and the transport's outcome per
upstream division id. -/
structure Env where
  readFails : Bool
  writeFails : Bool
  keysFails : Bool
  delFails : String → Bool
  fetch : Nat → FetchOutcome

/-- The `REDIS_PREFIX` key namespace with its default value
(`scraper.js:11`). -/
def redisNs : String := "proftafla"

/-- The cache key for a slug, `` `${redisPrefix}:${slug}` ``
(`scraper.js:156`). -/
def cacheKey (slug : String) : String := redisNs ++ ":" ++ slug

/-- Look a key up in the store's entries. -/
def lookupCell (entries : List (String × TextVal)) (k : String) : Option TextVal :=
  (entries.find? fun e => e.1 == k).map fun e => e.2

/-- Set a key in the store's entries, overwriting any previous value. -/
def setCell (entries : List (String × TextVal)) (k : String) (v : TextVal) :
    List (String × TextVal) :=
  (k, v) :: entries.filter fun e => !(e.1 == k)

/-- Outcome of `asyncGet(key)`: the store threw, or it returned the stored
text (`none` when the key is absent, which redis reports as `null`). -/
inductive ReadResult where
  | err
  | ok (v : Option TextVal)

/-- Perform the store read of `getFromCache`. -/
def readCache (env : Env) (st : CacheState) (k : String) : ReadResult :=
  if env.readFails then .err else .ok (lookupCell st.entries k)

/-- Model of `getFromCache` (`scraper.js:63-71`): `JSON.parse` the text
`asyncGet` returned. A store error is caught and yields `null`; an absent
key yields `null` (`JSON.parse(null)` parses the string `"null"`); text
`JSON.parse` rejects yields `null` through the same catch. -/
def getFromCache : ReadResult → Json
  | .err => .null
  | .ok none => .null
  | .ok (some .badText) => .null
  | .ok (some (.jsonText j)) => j

/-- Model of `cache(key, value)` (`scraper.js:79-87`): store the
`JSON.stringify` image under the key with the configured TTL (expiry is the
store's own concern and is not modelled further); a store error is caught,
leaving the store unchanged and the caller unaware. -/
def cacheWrite (env : Env) (st : CacheState) (k : String) (d : DivisionResult) :
    CacheState :=
  if env.writeFails then st
  else { st with entries := setCell st.entries k (.jsonText (divisionToJson d)) }

/-- What a `getTests` call resolves with: `null` for an unknown slug, the
decoded cached JSON value verbatim on a cache hit, or the freshly fetched
record. -/
inductive GetResult where
  | null
  | cached (j : Json)
  | fresh (d : DivisionResult)

/-- Model of `getTests(slug)` (`scraper.js:149-168`): resolve the slug in
the registry (`null` if unknown); read the cache and return the decoded
value if truthy; otherwise issue the upstream fetch (counted in
`fetchCount`), propagate its error if it throws, and on success write the
result to the cache (best effort) and return it. -/
def getTests (env : Env) (st : CacheState) (slug : String) :
    Except JsErr (GetResult × CacheState) :=
  match schools.find? fun i => i.slug == slug with
  | none => .ok (.null, st)
  | some item =>
    let key := cacheKey slug
    let cached := getFromCache (readCache env st key)
    if jsTruthy cached then .ok (.cached cached, st)
    else
      let st1 : CacheState := { st with fetchCount := st.fetchCount + 1 }
      match fetchAndParse (env.fetch item.id) item.name with
      | .error e => .error e
      | .ok data => .ok (.fresh data, cacheWrite env st1 key data)

/-- The keys the `` `${redisPrefix}:*` `` pattern lists. -/
def keysWithNs (st : CacheState) : List String :=
  (st.entries.map Prod.fst).filter fun k => (redisNs ++ ":").data.isPrefixOf k.data

/-- Model of `clearCache()` (`scraper.js:175-185`): list the keys under the
namespace and delete them all. If listing throws, nothing is deleted and
the catch returns `false`. The deletes are all issued (`Promise.all`), so
every delete that does not itself throw removes its key even when another
delete throws; any throwing delete makes the catch return `false`,
otherwise `true`. -/
def clearCache (env : Env) (st : CacheState) : Bool × CacheState :=
  if env.keysFails then (false, st)
  else
    let ks := keysWithNs st
    let st2 : CacheState :=
      { st with entries := st.entries.filter fun e => !(ks.contains e.1 && !env.delFails e.1) }
    if ks.any env.delFails then (false, st2) else (true, st2)

/-! ### Aggregation (`getStats`) -/

/-- The record `getStats` returns (`scraper.js:221-227`). -/
structure Stats where
  min : Int
  max : Int
  numTests : Nat
  numStudents : Option Int
  averageStudents : String
deriving DecidableEq

/-- The four accumulators of the fold (`scraper.js:193-196`). -/
structure StatsAcc where
  min : Int
  max : Int
  numTests : Nat
  numStudents : Option Int
deriving DecidableEq

/-- JS addition on the modelled numbers: `NaN` absorbs. -/
def jsAdd : Option Int → Option Int → Option Int
  | some a, some b => some (a + b)
  | _, _ => none

/-- One step of the fold (`scraper.js:202-215`): count the test, add its
students to the sum, and update max and min by the strict comparisons
`students > max` and `students < min` — both false when students is `NaN`,
which is therefore skipped by min and max but still counted. -/
def foldTest (a : StatsAcc) (t : Test) : StatsAcc :=
  { numTests := a.numTests + 1
    numStudents := jsAdd a.numStudents t.students
    max := match t.students with
      | some s => if a.max < s then s else a.max
      | none => a.max
    min := match t.students with
      | some s => if s < a.min then s else a.min
      | none => a.min }

/-- The fold step as a function of the students value alone (`foldTest`
reads nothing else from the test). -/
def foldStudent (a : StatsAcc) (s : Option Int) : StatsAcc :=
  { numTests := a.numTests + 1
    numStudents := jsAdd a.numStudents s
    max := match s with
      | some v => if a.max < v then v else a.max
      | none => a.max
    min := match s with
      | some v => if v < a.min then v else a.min
      | none => a.min }

/-- The accumulator seeds (`scraper.js:193-196`): min starts at the high
sentinel 999, max at 0, both counters at 0. -/
def initAcc : StatsAcc := ⟨999, 0, 0, some 0⟩

/-- The triple nested fold of `getStats` (`scraper.js:200-217`) over the
fetched division results, in registry order. -/
def foldAll (all : List DivisionResult) : StatsAcc :=
  all.foldl
    (fun a d => d.departments.foldl (fun a2 dep => dep.tests.foldl foldTest a2) a)
    initAcc

/-- Format the exact value `num / den` the way `toFixed(2)` renders the JS
quotient: round to the nearest hundredth, ties away from zero, and print
with exactly two fraction digits. (JS divides as doubles; for every value
arising in the claims the double rounds to the same two digits as the exact
quotient.) `num` is the magnitude and `den` is positive here. -/
def fixedMag (num den : Nat) : String :=
  let m := (200 * num + den) / (2 * den)
  toString (m / 100) ++ "." ++ (if m % 100 < 10 then "0" else "") ++ toString (m % 100)

/-- Model of `(numStudents / numTests).toFixed(2)` (`scraper.js:219`): a
`NaN` sum formats as `"NaN"`; a zero test count makes the division `0 / 0`
(the sum is 0 whenever the count is), which is `NaN` and formats as
`"NaN"`; otherwise format the exact quotient. -/
def jsToFixed2 : Option Int → Nat → String
  | none, _ => "NaN"
  | some _, 0 => "NaN"
  | some s, n + 1 =>
    if s < 0 then "-" ++ fixedMag s.natAbs (n + 1) else fixedMag s.toNat (n + 1)

/-- Model of `getStats` (`scraper.js:192-228`) as a function of the
division results the `Promise.all` over `getTests` fetched (the aggregation
itself starts at `scraper.js:200`): fold every test of every department of
every division, then format the average. -/
def getStats (all : List DivisionResult) : Stats :=
  let a := foldAll all
  { min := a.min
    max := a.max
    numTests := a.numTests
    numStudents := a.numStudents
    averageStudents := jsToFixed2 a.numStudents a.numTests }

/-- The students values of every test of every department of every
division, flattened in fold order. -/
def allStudents (all : List DivisionResult) : List (Option Int) :=
  all.flatMap fun d => d.departments.flatMap fun dep => dep.tests.map fun t => t.students

/-- Whether an operation completed without throwing. -/
def isOkResult {α : Type} : Except JsErr α → Bool
  | .ok _ => true
  | .error _ => false

/-! ### Helper lemmas -/

/-- The fold step reads nothing of the test beyond its students value. -/
theorem foldTest_eq_foldStudent (a : StatsAcc) (t : Test) :
    foldTest a t = foldStudent a t.students := rfl

/-- Folding the tests of one department only consumes their students
values. -/
theorem foldl_tests_students (ts : List Test) (a : StatsAcc) :
    ts.foldl foldTest a = (ts.map fun t => t.students).foldl foldStudent a := by
  induction ts generalizing a with
  | nil => rfl
  | cons t ts ih => exact ih (foldTest a t)

/-- Folding the departments of one division flattens to a fold over their
students values. -/
theorem foldl_depts_students (deps : List Department) (a : StatsAcc) :
    deps.foldl (fun a2 dep => dep.tests.foldl foldTest a2) a
      = (deps.flatMap fun dep => dep.tests.map fun t => t.students).foldl foldStudent a := by
  induction deps generalizing a with
  | nil => rfl
  | cons dep deps ih =>
    rw [List.foldl_cons, List.flatMap_cons, List.foldl_append, ih,
      foldl_tests_students]

/-- The triple nested fold flattens to a single fold over all students
values. -/
theorem foldAll_eq_students (all : List DivisionResult) :
    foldAll all = (allStudents all).foldl foldStudent initAcc := by
  suffices h : ∀ (l : List DivisionResult) (a : StatsAcc),
      l.foldl (fun a d => d.departments.foldl (fun a2 dep => dep.tests.foldl foldTest a2) a) a
        = (l.flatMap fun d => d.departments.flatMap fun dep =>
            dep.tests.map fun t => t.students).foldl foldStudent a from
    h all initAcc
  intro l
  induction l with
  | nil => intro a; rfl
  | cons d ds ih =>
    intro a
    rw [List.foldl_cons, List.flatMap_cons, List.foldl_append, ih,
      foldl_depts_students]

/-- Over actual numbers the min accumulator is the running minimum. -/
theorem foldl_min_students (vals : List Int) : ∀ a : StatsAcc,
    ((vals.map some).foldl foldStudent a).min = vals.foldl min a.min := by
  induction vals with
  | nil => intro a; rfl
  | cons v vs ih =>
    intro a
    have h1 : (foldStudent a (some v)).min = min a.min v := by
      show (if v < a.min then v else a.min) = min a.min v
      omega
    calc ((vs.map some).foldl foldStudent (foldStudent a (some v))).min
        = vs.foldl min (foldStudent a (some v)).min := ih _
      _ = vs.foldl min (min a.min v) := by rw [h1]

/-- Over actual numbers the max accumulator is the running maximum. -/
theorem foldl_max_students (vals : List Int) : ∀ a : StatsAcc,
    ((vals.map some).foldl foldStudent a).max = vals.foldl max a.max := by
  induction vals with
  | nil => intro a; rfl
  | cons v vs ih =>
    intro a
    have h1 : (foldStudent a (some v)).max = max a.max v := by
      show (if a.max < v then v else a.max) = max a.max v
      omega
    calc ((vs.map some).foldl foldStudent (foldStudent a (some v))).max
        = vs.foldl max (foldStudent a (some v)).max := ih _
      _ = vs.foldl max (max a.max v) := by rw [h1]

/-- A test with an actual number decodes back from its JSON image. -/
theorem testFromJson_testToJson (t : Test) (h : t.students.isSome = true) :
    testFromJson (testToJson t) = some t := by
  obtain ⟨c, n, ty, s, dt⟩ := t
  cases s with
  | none => simp at h
  | some v => rfl

/-- A list of tests with actual numbers decodes back from its JSON image. -/
theorem testsFromJson_map (ts : List Test) (h : ∀ t ∈ ts, t.students.isSome = true) :
    testsFromJson (ts.map testToJson) = some ts := by
  induction ts with
  | nil => rfl
  | cons t ts ih =>
    have h1 := testFromJson_testToJson t (h t (by simp))
    have h2 := ih fun t2 ht2 => h t2 (by simp [ht2])
    simp [testsFromJson, h1, h2]

/-- A department whose tests hold actual numbers decodes back from its JSON
image. -/
theorem departmentFromJson_departmentToJson (dep : Department)
    (h : ∀ t ∈ dep.tests, t.students.isSome = true) :
    departmentFromJson (departmentToJson dep) = some dep := by
  obtain ⟨hd, ts⟩ := dep
  simp [departmentToJson, departmentFromJson, testsFromJson_map ts h]

/-- A list of departments whose tests hold actual numbers decodes back. -/
theorem departmentsFromJson_map (deps : List Department)
    (h : ∀ dep ∈ deps, ∀ t ∈ dep.tests, t.students.isSome = true) :
    departmentsFromJson (deps.map departmentToJson) = some deps := by
  induction deps with
  | nil => rfl
  | cons dep deps ih =>
    have h1 := departmentFromJson_departmentToJson dep (h dep (by simp))
    have h2 := ih fun d2 hd2 => h d2 (by simp [hd2])
    simp [departmentsFromJson, h1, h2]

/-- The `JSON.stringify`/`JSON.parse` round trip is exact on every division
record whose students fields are actual numbers. -/
theorem divisionFromJson_divisionToJson (d : DivisionResult)
    (h : numericDivision d = true) :
    divisionFromJson (divisionToJson d) = some d := by
  obtain ⟨hd, deps⟩ := d
  simp only [numericDivision, List.all_eq_true] at h
  simp [divisionToJson, divisionFromJson, departmentsFromJson_map deps h]

/-- The JSON image of a division record is an object, hence truthy. -/
theorem jsTruthy_divisionToJson (d : DivisionResult) :
    jsTruthy (divisionToJson d) = true := rfl

/-- Reading back the key just written returns the value written. -/
theorem lookupCell_setCell_self (entries : List (String × TextVal))
    (k : String) (v : TextVal) :
    lookupCell (setCell entries k v) k = some v := by
  unfold lookupCell setCell
  rw [List.find?_cons_of_pos _ (by simp)]
  rfl

/-! ### Claim theorems -/

/-- C1: for every fetched fragment `fetchAndParse` makes each level-3
heading a department boundary (one department per heading, in order); a
fragment with two headings each followed by a table parses to exactly those
two departments, each test read from the five fixed-position cells in
order; and a row whose fourth cell is the text `"42"` parses to the integer
students value 42 with the other four cells trimmed into course, name,
type and date. -/
theorem c1_heading_table_parse :
    (∀ frag : List Node, (parseFragment frag).length = countH3 frag) ∧
    (∀ (hd t1 t2 : String) (r1 r2 : List (List String)),
      fetchAndParse (.resp 200 (.okBody [.h3 t1, .table r1, .h3 t2, .table r2])) hd
        = .ok ⟨hd, [⟨jsTrim t1, r1.map rowToTest⟩, ⟨jsTrim t2, r2.map rowToTest⟩]⟩) ∧
    rowToTest ["HBV403G", " Þróun hugbúnaðar ", "skriflegt", "42", "30.4.2018"]
      = ⟨"HBV403G", "Þróun hugbúnaðar", "skriflegt", some 42, "30.4.2018"⟩ := by
  refine ⟨?_, fun hd t1 t2 r1 r2 => rfl, by decide⟩
  intro frag
  induction frag with
  | nil => rfl
  | cons n rest ih => cases n <;> simp [parseFragment, countH3, ih]

/-- Fixed input for C2: division results whose tests have student counts 3,
10 and 1. -/
def c2Divisions : List DivisionResult :=
  [⟨"Félagsvísindasvið",
    [⟨"Félagsfræði-, mannfræði- og þjóðfræðideild",
      [⟨"FÉL101G", "Almenn félagsfræði", "skriflegt", some 3, "30.4.2018"⟩,
       ⟨"MAN103G", "Mannfræði", "skriflegt", some 10, "2.5.2018"⟩]⟩]⟩,
   ⟨"Hugvísindasvið",
    [⟨"Deild heimspeki", [⟨"HSP105G", "Heimspeki", "munnlegt", some 1, "4.5.2018"⟩]⟩]⟩]

/-- C2: on the fixed division results with student counts 3, 10 and 1,
`getStats` returns numTests 3, numStudents 14, min 1, max 10, and the
average formatted as the fixed-point two-fraction-digit string "4.67". -/
theorem c2_getStats_fixed :
    getStats c2Divisions = ⟨1, 10, 3, some 14, "4.67"⟩ := by decide

/-- Single-test input whose students count exceeds the 999 seed. -/
def c3Division : DivisionResult :=
  ⟨"Verkfræði- og náttúruvísindasvið",
   [⟨"Iðnaðarverkfræðideild",
     [⟨"IÐN401G", "Aðgerðagreining", "skriflegt", some 1000, "1.5.2018"⟩]⟩]⟩

/-- C3 counterexample: on a collection whose only test has 1000 students,
the minimum of the students values is 1000, but `getStats` returns min 999
(the seed), so the min field does not equal the true minimum. -/
theorem c3_min_not_true_min :
    allStudents [c3Division] = [some 1000] ∧
    (getStats [c3Division]).min = 999 ∧
    (getStats [c3Division]).min ≠ 1000 := by decide

/-- C3 amended: for every collection with at least one test whose students
values are all actual numbers, the min field is the minimum of the 999 seed
and all students values, and the max field is the maximum of the 0 seed and
all students values (the true minimum and maximum only when the values lie
at or below 999 and at or above 0). -/
theorem c3_min_max_from_seeds (all : List DivisionResult) (vals : List Int)
    (hv : allStudents all = vals.map some) (_hne : vals ≠ []) :
    (getStats all).min = vals.foldl min 999 ∧
    (getStats all).max = vals.foldl max 0 := by
  constructor
  · show (foldAll all).min = _
    rw [foldAll_eq_students, hv, foldl_min_students]
    rfl
  · show (foldAll all).max = _
    rw [foldAll_eq_students, hv, foldl_max_students]
    rfl

/-- C3 amended, witnessed at the counterexample input: the seeded fold
gives min 999 and max 1000 for the single students value 1000. -/
theorem c3_min_max_from_seeds_witness :
    (getStats [c3Division]).min = [(1000 : Int)].foldl min 999 ∧
    (getStats [c3Division]).max = [(1000 : Int)].foldl max 0 :=
  c3_min_max_from_seeds [c3Division] [1000] (by decide) (by decide)

/-- C6: when the divisions together contain zero tests, `getStats` leaves
min at the 999 seed and max at 0, and the average is the `toFixed`
rendering "NaN" of the unguarded zero-by-zero division (the record also
shows numTests 0 and numStudents 0, the operands of that division). -/
theorem c6_zero_tests (all : List DivisionResult)
    (h : allStudents all = []) :
    getStats all = ⟨999, 0, 0, some 0, "NaN"⟩ := by
  have h2 : foldAll all = initAcc := by rw [foldAll_eq_students, h]; rfl
  unfold getStats
  rw [h2]
  rfl

/-- C6 witnessed on a division with one department and no tests. -/
theorem c6_zero_tests_witness :
    getStats [⟨"Menntavísindasvið", [⟨"Kennaradeild", []⟩]⟩]
      = ⟨999, 0, 0, some 0, "NaN"⟩ :=
  c6_zero_tests [⟨"Menntavísindasvið", [⟨"Kennaradeild", []⟩]⟩] (by decide)

/-- C4: for every environment and store state, a slug that matches no
division in the registry makes `getTests` return the absent result `null`
with the state untouched — in particular no error is raised. -/
theorem c4_unknown_slug (env : Env) (st : CacheState) (slug : String)
    (h : ∀ d ∈ schools, d.slug ≠ slug) :
    getTests env st slug = .ok (.null, st) := by
  have hf : (schools.find? fun i => i.slug == slug) = none := by
    rw [List.find?_eq_none]
    intro x hx
    simpa using h x hx
  simp [getTests, hf]

/-- C4 witnessed on the unknown slug "verkfraedisvid". -/
theorem c4_unknown_slug_witness :
    getTests ⟨false, false, false, fun _ => false, fun _ => .netFail⟩ ⟨[], 0⟩
        "verkfraedisvid"
      = .ok (.null, ⟨[], 0⟩) :=
  c4_unknown_slug _ _ _ (by decide)

/-- C5 amended: for every known slug, when the cache misses and the fetch
succeeds, the first `getTests` call returns the fresh record and bumps the
upstream request count by one while writing the record's JSON image to the
cache; the second call on the resulting state returns that cached image
verbatim and leaves the state — the request count included — untouched, so
no second upstream request is issued; and when the record's students fields
are all actual numbers the stored encoding decodes back to exactly the
first result (the byte-identical round trip). A record with a `NaN`
students value is excluded: there the round trip fails (see the
counterexample below). -/
theorem c5_cache_round_trip (env : Env) (st st1 : CacheState) (slug : String)
    (item : Division) (frag : List Node) (d : DivisionResult)
    (hfind : (schools.find? fun i => i.slug == slug) = some item)
    (hread : env.readFails = false) (hwrite : env.writeFails = false)
    (hmiss : lookupCell st.entries (cacheKey slug) = none)
    (hfetch : env.fetch item.id = .resp 200 (.okBody frag))
    (hd : d = ⟨item.name, parseFragment frag⟩)
    (hnum : numericDivision d = true)
    (hst1 : st1 = ⟨setCell st.entries (cacheKey slug)
        (.jsonText (divisionToJson d)), st.fetchCount + 1⟩) :
    getTests env st slug = .ok (.fresh d, st1) ∧
    getTests env st1 slug = .ok (.cached (divisionToJson d), st1) ∧
    st1.fetchCount = st.fetchCount + 1 ∧
    divisionFromJson (divisionToJson d) = some d := by
  subst hd hst1
  refine ⟨?_, ?_, rfl, divisionFromJson_divisionToJson _ hnum⟩
  · simp [getTests, hfind, readCache, hread, hmiss, getFromCache, jsTruthy,
      hfetch, fetchAndParse, cacheWrite, hwrite]
  · simp [getTests, hfind, readCache, hread, lookupCell_setCell_self,
      getFromCache, jsTruthy_divisionToJson]

/-- C5 environment: a healthy store and a transport that answers every
division id with status 200 and a one-department fragment whose single row
has 42 students. -/
def c5Env : Env :=
  ⟨false, false, false, fun _ => false,
   fun _ => .resp 200 (.okBody
     [.h3 "Hagfræðideild", .table [["HAG101G", "Hagfræði", "skriflegt", "42", "30.4.2018"]]])⟩

/-- The record `c5Env`'s fragment parses to for Hugvísindasvið. -/
def c5Data : DivisionResult :=
  ⟨"Hugvísindasvið",
   [⟨"Hagfræðideild", [⟨"HAG101G", "Hagfræði", "skriflegt", some 42, "30.4.2018"⟩]⟩]⟩

/-- The state after the first C5 call: the record's JSON image cached under
its key and one upstream request counted. -/
def c5St1 : CacheState :=
  ⟨[(cacheKey "hugvisindasvid", .jsonText (divisionToJson c5Data))], 1⟩

/-- C5 witnessed on slug "hugvisindasvid" from an empty cache. -/
theorem c5_cache_round_trip_witness :
    getTests c5Env ⟨[], 0⟩ "hugvisindasvid" = .ok (.fresh c5Data, c5St1) ∧
    getTests c5Env c5St1 "hugvisindasvid"
      = .ok (.cached (divisionToJson c5Data), c5St1) ∧
    c5St1.fetchCount = (0 : Nat) + 1 ∧
    divisionFromJson (divisionToJson c5Data) = some c5Data :=
  c5_cache_round_trip c5Env ⟨[], 0⟩ c5St1 "hugvisindasvid"
    ⟨"Hugvísindasvið", 3, "hugvisindasvid"⟩
    [.h3 "Hagfræðideild", .table [["HAG101G", "Hagfræði", "skriflegt", "42", "30.4.2018"]]]
    c5Data rfl rfl rfl rfl rfl (by decide) (by decide) rfl

/-- C5 counterexample environment: the transport answers every division id
with a fragment whose single row has the non-numeric students text
"óvíst", which `Number` converts to `NaN`. -/
def c5NanEnv : Env :=
  ⟨false, false, false, fun _ => false,
   fun _ => .resp 200 (.okBody
     [.h3 "Hagfræðideild", .table [["HAG101G", "Hagfræði", "skriflegt", "óvíst", "30.4.2018"]]])⟩

/-- The record `c5NanEnv`'s fragment parses to for Hugvísindasvið: its
students field is `NaN`. -/
def c5NanData : DivisionResult :=
  ⟨"Hugvísindasvið",
   [⟨"Hagfræðideild", [⟨"HAG101G", "Hagfræði", "skriflegt", none, "30.4.2018"⟩]⟩]⟩

/-- The state after the first call against `c5NanEnv`. -/
def c5NanSt1 : CacheState :=
  ⟨[(cacheKey "hugvisindasvid", .jsonText (divisionToJson c5NanData))], 1⟩

/-- C5 counterexample: a successful fetch whose record carries a `NaN`
students value populates the cache, and the second call does return the
cached image without a second upstream request — but that image holds
`null` where the first result holds `NaN` (`JSON.stringify` flattens it),
so the cached value does not decode back to the first result: the second
call's data is not byte-identical to the first, refuting the claim as
stated. -/
theorem c5_nan_breaks_round_trip :
    getTests c5NanEnv ⟨[], 0⟩ "hugvisindasvid" = .ok (.fresh c5NanData, c5NanSt1) ∧
    getTests c5NanEnv c5NanSt1 "hugvisindasvid"
      = .ok (.cached (divisionToJson c5NanData), c5NanSt1) ∧
    (c5NanData.departments.map fun dep => dep.tests.map fun t => t.students)
      = [[none]] ∧
    testToJson ⟨"HAG101G", "Hagfræði", "skriflegt", none, "30.4.2018"⟩
      = .obj [("course", .str "HAG101G"), ("name", .str "Hagfræði"),
              ("type", .str "skriflegt"), ("students", .null),
              ("date", .str "30.4.2018")] ∧
    divisionFromJson (divisionToJson c5NanData) ≠ some c5NanData := by
  refine ⟨rfl, rfl, rfl, rfl, ?_⟩
  decide

/-- C7: a response whose status is not exactly 200 makes `fetchAndParse`
throw the non-200 error, and on a cache miss that error propagates out of
`getTests` unabsorbed. -/
theorem c7_non200_propagates (env : Env) (st : CacheState) (slug : String)
    (item : Division) (s : Nat) (b : FetchBody)
    (hfind : (schools.find? fun i => i.slug == slug) = some item)
    (hfetch : env.fetch item.id = .resp s b)
    (hs : s ≠ 200)
    (hmiss : jsTruthy (getFromCache (readCache env st (cacheKey slug))) = false) :
    fetchAndParse (env.fetch item.id) item.name = .error .non200 ∧
    getTests env st slug = .error .non200 := by
  have h1 : fetchAndParse (env.fetch item.id) item.name = .error .non200 := by
    rw [hfetch]
    simp [fetchAndParse, hs]
  refine ⟨h1, ?_⟩
  simp [getTests, hfind, hmiss, h1]

/-- C7 witnessed on a transport answering 404 and an empty cache. -/
theorem c7_non200_propagates_witness :
    fetchAndParse ((⟨false, false, false, fun _ => false,
        fun _ => .resp 404 .badJson⟩ : Env).fetch 3) "Hugvísindasvið"
      = .error .non200 ∧
    getTests ⟨false, false, false, fun _ => false, fun _ => .resp 404 .badJson⟩
        ⟨[], 0⟩ "hugvisindasvid"
      = .error .non200 :=
  c7_non200_propagates _ ⟨[], 0⟩ "hugvisindasvid"
    ⟨"Hugvísindasvið", 3, "hugvisindasvid"⟩ 404 .badJson rfl rfl (by decide) rfl

/-- C8: every cache-layer failure is absorbed. A store read error makes
`getFromCache` return the absent `null`; stored text that fails to decode
also makes it return `null`; a store error during a write leaves the state
exactly as it was (the write is a silent no-op); and `getTests` completes
without raising whenever the fetch pipeline does — regardless of how the
cache layer fails. -/
theorem c8_cache_errors_absorbed :
    (∀ (env : Env) (st : CacheState) (k : String), env.readFails = true →
      getFromCache (readCache env st k) = Json.null) ∧
    (∀ (env : Env) (st : CacheState) (k : String),
      lookupCell st.entries k = some .badText →
      getFromCache (readCache env st k) = Json.null) ∧
    (∀ (env : Env) (st : CacheState) (k : String) (d : DivisionResult),
      env.writeFails = true → cacheWrite env st k d = st) ∧
    (∀ (env : Env) (st : CacheState) (slug : String),
      (∀ item ∈ schools, isOkResult (fetchAndParse (env.fetch item.id) item.name) = true) →
      isOkResult (getTests env st slug) = true) := by
  refine ⟨?_, ?_, ?_, ?_⟩
  · intro env st k h
    simp [readCache, h, getFromCache]
  · intro env st k h
    by_cases hr : env.readFails = true
    · simp [readCache, hr, getFromCache]
    · simp only [Bool.not_eq_true] at hr
      simp [readCache, hr, h, getFromCache]
  · intro env st k d h
    simp [cacheWrite, h]
  · intro env st slug h
    unfold getTests
    cases hfind : schools.find? fun i => i.slug == slug with
    | none => rfl
    | some item =>
      have hmem := List.mem_of_find?_eq_some hfind
      by_cases htr : jsTruthy (getFromCache (readCache env st (cacheKey slug))) = true
      · simp [htr, isOkResult]
      · simp only [Bool.not_eq_true] at htr
        cases hfp : fetchAndParse (env.fetch item.id) item.name with
        | error e =>
          have := h item hmem
          rw [hfp] at this
          simp [isOkResult] at this
        | ok data => simp [htr, hfp, isOkResult]

/-- C8 witnessed: a read against a throwing store yields `null`; a stored
undecodable text yields `null`; a write against a throwing store changes
nothing; and `getTests` on a store that fails both reads and writes still
completes when the fetch succeeds. -/
theorem c8_cache_errors_absorbed_witness :
    getFromCache (readCache ⟨true, true, false, fun _ => false,
        fun _ => .resp 200 (.okBody [])⟩ ⟨[], 0⟩ "proftafla:hugvisindasvid")
      = Json.null ∧
    getFromCache (readCache ⟨false, false, false, fun _ => false, fun _ => .netFail⟩
        ⟨[("proftafla:hugvisindasvid", .badText)], 0⟩ "proftafla:hugvisindasvid")
      = Json.null ∧
    cacheWrite ⟨true, true, false, fun _ => false, fun _ => .resp 200 (.okBody [])⟩
        ⟨[], 0⟩ "proftafla:hugvisindasvid" ⟨"Hugvísindasvið", []⟩
      = ⟨[], 0⟩ ∧
    isOkResult (getTests ⟨true, true, false, fun _ => false,
        fun _ => .resp 200 (.okBody [])⟩ ⟨[], 0⟩ "hugvisindasvid") = true :=
  ⟨c8_cache_errors_absorbed.1 _ ⟨[], 0⟩ _ rfl,
   c8_cache_errors_absorbed.2.1 _ _ _ rfl,
   c8_cache_errors_absorbed.2.2.1 _ ⟨[], 0⟩ _ _ rfl,
   c8_cache_errors_absorbed.2.2.2 _ ⟨[], 0⟩ _ (by decide)⟩

/-- C9: `clearCache` lists the keys under the `proftafla:` namespace and
deletes exactly those, returning true, when neither listing nor any delete
throws; and it returns false whenever listing throws or any single delete
throws (it never raises: the operation always returns a boolean). -/
theorem c9_clear_cache (env : Env) (st : CacheState) :
    ((env.keysFails = false ∧ ∀ k ∈ keysWithNs st, env.delFails k = false) →
      clearCache env st =
        (true, ⟨st.entries.filter fun e =>
          !((redisNs ++ ":").data.isPrefixOf e.1.data), st.fetchCount⟩)) ∧
    ((env.keysFails = true ∨ ∃ k ∈ keysWithNs st, env.delFails k = true) →
      (clearCache env st).1 = false) := by
  constructor
  · rintro ⟨hk, hdel⟩
    have hany : (keysWithNs st).any env.delFails = false := by
      rw [List.any_eq_false]
      intro k hk2
      simp [hdel k hk2]
    have hfilter : (st.entries.filter fun e =>
          !((keysWithNs st).contains e.1 && !env.delFails e.1))
        = st.entries.filter fun e =>
          !((redisNs ++ ":").data.isPrefixOf e.1.data) := by
      apply List.filter_congr
      intro e he
      have hc : (keysWithNs st).contains e.1
          = (redisNs ++ ":").data.isPrefixOf e.1.data := by
        cases hp : (redisNs ++ ":").data.isPrefixOf e.1.data with
        | true =>
          have hmem : e.1 ∈ keysWithNs st :=
            List.mem_filter.mpr ⟨List.mem_map.mpr ⟨e, he, rfl⟩, hp⟩
          simpa [List.elem_iff] using hmem
        | false =>
          rw [Bool.eq_false_iff]
          intro hcon
          have hmem : e.1 ∈ keysWithNs st := by
            simpa [List.elem_iff] using hcon
          have := (List.mem_filter.mp hmem).2
          rw [hp] at this
          exact Bool.false_ne_true this
      rw [hc]
      cases hpre : (redisNs ++ ":").data.isPrefixOf e.1.data with
      | false => rfl
      | true =>
        have hmem : e.1 ∈ keysWithNs st :=
          List.mem_filter.mpr ⟨List.mem_map.mpr ⟨e, he, rfl⟩, hpre⟩
        simp [hdel e.1 hmem]
    unfold clearCache
    rw [hk]
    simp only [Bool.false_eq_true, if_false, hany, hfilter]
  · intro h
    unfold clearCache
    rcases h with hk | ⟨k, hk2, hdel⟩
    · rw [hk]
      rfl
    · cases hkf : env.keysFails with
      | true => rfl
      | false =>
        have hany : (keysWithNs st).any env.delFails = true :=
          List.any_eq_true.mpr ⟨k, hk2, hdel⟩
        simp [hany]

/-- Store contents for the C9 witness: two namespaced keys and one foreign
key. -/
def c9Entries : List (String × TextVal) :=
  [("proftafla:felagsvisindasvid", .badText), ("other:key", .badText),
   ("proftafla:hugvisindasvid", .badText)]

/-- C9 witnessed: with a healthy store both namespaced keys are deleted,
the foreign key survives and the call returns true; with listing throwing
the call returns false. -/
theorem c9_clear_cache_witness :
    clearCache ⟨false, false, false, fun _ => false, fun _ => .netFail⟩ ⟨c9Entries, 7⟩
      = (true, ⟨c9Entries.filter fun e =>
          !((redisNs ++ ":").data.isPrefixOf e.1.data), 7⟩) ∧
    (clearCache ⟨false, false, true, fun _ => false, fun _ => .netFail⟩
        ⟨c9Entries, 7⟩).1 = false :=
  ⟨(c9_clear_cache _ _).1 ⟨rfl, by decide⟩,
   (c9_clear_cache _ _).2 (Or.inl rfl)⟩

/-- C10: a cached entry that decodes to a falsy value — `null`, `false`,
`0` or the empty string — is treated as a miss: `getTests` issues a fresh
upstream fetch (the request count grows by one), returns the fresh record,
and overwrites the cache entry with that record's JSON image instead of
returning the stored falsy value. -/
theorem c10_falsy_cached_is_miss (env : Env) (st st1 : CacheState)
    (slug : String) (item : Division) (j : Json) (frag : List Node)
    (d : DivisionResult)
    (hfind : (schools.find? fun i => i.slug == slug) = some item)
    (hread : env.readFails = false)
    (hcell : lookupCell st.entries (cacheKey slug) = some (.jsonText j))
    (hfalsy : j = .null ∨ j = .b false ∨ j = .num 0 ∨ j = .str "")
    (hwrite : env.writeFails = false)
    (hfetch : env.fetch item.id = .resp 200 (.okBody frag))
    (hd : d = ⟨item.name, parseFragment frag⟩)
    (hst1 : st1 = ⟨setCell st.entries (cacheKey slug)
        (.jsonText (divisionToJson d)), st.fetchCount + 1⟩) :
    getTests env st slug = .ok (.fresh d, st1) ∧
    lookupCell st1.entries (cacheKey slug) = some (.jsonText (divisionToJson d)) ∧
    st1.fetchCount = st.fetchCount + 1 := by
  subst hd hst1
  have htr : jsTruthy j = false := by
    rcases hfalsy with rfl | rfl | rfl | rfl <;> rfl
  refine ⟨?_, lookupCell_setCell_self _ _ _, rfl⟩
  simp [getTests, hfind, readCache, hread, hcell, getFromCache, htr, hfetch,
    fetchAndParse, cacheWrite, hwrite]

/-- C10 witnessed: a cached JSON `null` under the key for
"hugvisindasvid" is bypassed and overwritten by a fresh fetch. -/
theorem c10_falsy_cached_is_miss_witness :
    getTests c5Env ⟨[(cacheKey "hugvisindasvid", .jsonText .null)], 0⟩
        "hugvisindasvid"
      = .ok (.fresh c5Data,
          ⟨setCell [(cacheKey "hugvisindasvid", .jsonText .null)]
            (cacheKey "hugvisindasvid") (.jsonText (divisionToJson c5Data)), 1⟩) ∧
    lookupCell (setCell [(cacheKey "hugvisindasvid", .jsonText .null)]
        (cacheKey "hugvisindasvid") (.jsonText (divisionToJson c5Data)))
        (cacheKey "hugvisindasvid")
      = some (.jsonText (divisionToJson c5Data)) ∧
    (⟨setCell [(cacheKey "hugvisindasvid", .jsonText .null)]
        (cacheKey "hugvisindasvid") (.jsonText (divisionToJson c5Data)), 1⟩
      : CacheState).fetchCount = (0 : Nat) + 1 :=
  c10_falsy_cached_is_miss c5Env
    ⟨[(cacheKey "hugvisindasvid", .jsonText .null)], 0⟩ _ "hugvisindasvid"
    ⟨"Hugvísindasvið", 3, "hugvisindasvid"⟩ .null
    [.h3 "Hagfræðideild", .table [["HAG101G", "Hagfræði", "skriflegt", "42", "30.4.2018"]]]
    c5Data rfl rfl rfl (Or.inl rfl) rfl rfl (by decide) rfl

end Scraper
